import Mathlib

/-!
Verification of the vloex-node repository's specification against its code.

The development shallowly embeds the two claim-relevant components:

* `verifyWebhookSignature` from `examples/github-release-with-webhook.js`:
  HMAC-SHA256 webhook signature verification with a 300-second freshness
  window, JavaScript `String.prototype.split('=')` digest extraction, and
  Node's `crypto.timingSafeEqual` (which throws on length mismatch) wrapped
  in a `try`/`catch` that returns `false`.

* the SDK client's `request` response handling from `src/index.ts`:
  non-2xx responses become a thrown `VloexError` carrying the HTTP status
  and a message chosen by JavaScript truthiness (`data.detail ||
  data.message || 'API request failed'`); 2xx responses are renamed into
  the stable `Video` shape depending on which substring the request path
  contains.

Conventions of the embedding:

* Byte strings are `List Nat` with each element intended below 256;
  32-bit words are `Nat` reduced modulo 2^32 where the algorithm requires.
* JavaScript strings are Lean `String`s; `Buffer.from(s)` (UTF-8) is
  `strBytes`.  JavaScript number arithmetic on timestamps is modelled with
  exact `Int` arithmetic, which agrees with IEEE doubles on the integer
  values involved (exact below 2^53).
* A JavaScript value that may be `undefined` is an `Option`; a thrown
  exception is the `none`/`Except.error` branch of the modelled operation.
* SHA-256 and HMAC-SHA256 are the algorithms computed by Node's
  `crypto.createHmac('sha256', key).update(msg).digest('hex')` (FIPS 180-4
  and RFC 2104); they are implemented executably below and checked against
  the standard test vectors.
-/

/-! ## SHA-256 (FIPS 180-4), as computed by node:crypto -/

/-- Reduce a `Nat` to a 32-bit word. -/
def w32 (x : Nat) : Nat := x % 4294967296

/-- Right rotation of a 32-bit word by `n` bits. -/
def rotr32 (n x : Nat) : Nat := w32 ((x >>> n) ||| (x <<< (32 - n)))

/-- Bitwise complement of a 32-bit word. -/
def not32 (x : Nat) : Nat := Nat.xor x 4294967295

/-- SHA-256 `Ch` function. -/
def shaCh (x y z : Nat) : Nat := Nat.xor (Nat.land x y) (Nat.land (not32 x) z)

/-- SHA-256 `Maj` function. -/
def shaMaj (x y z : Nat) : Nat := Nat.xor (Nat.xor (Nat.land x y) (Nat.land x z)) (Nat.land y z)

/-- SHA-256 big sigma 0. -/
def bsig0 (x : Nat) : Nat := Nat.xor (Nat.xor (rotr32 2 x) (rotr32 13 x)) (rotr32 22 x)

/-- SHA-256 big sigma 1. -/
def bsig1 (x : Nat) : Nat := Nat.xor (Nat.xor (rotr32 6 x) (rotr32 11 x)) (rotr32 25 x)

/-- SHA-256 small sigma 0. -/
def ssig0 (x : Nat) : Nat := Nat.xor (Nat.xor (rotr32 7 x) (rotr32 18 x)) (x >>> 3)

/-- SHA-256 small sigma 1. -/
def ssig1 (x : Nat) : Nat := Nat.xor (Nat.xor (rotr32 17 x) (rotr32 19 x)) (x >>> 10)

/-- The 64 SHA-256 round constants. -/
def K256 : List Nat :=
  [1116352408, 1899447441, 3049323471, 3921009573, 961987163,
   1508970993, 2453635748, 2870763221, 3624381080, 310598401,
   607225278, 1426881987, 1925078388, 2162078206, 2614888103,
   3248222580, 3835390401, 4022224774, 264347078, 604807628,
   770255983, 1249150122, 1555081692, 1996064986, 2554220882,
   2821834349, 2952996808, 3210313671, 3336571891, 3584528711,
   113926993, 338241895, 666307205, 773529912, 1294757372,
   1396182291, 1695183700, 1986661051, 2177026350, 2456956037,
   2730485921, 2820302411, 3259730800, 3345764771, 3516065817,
   3600352804, 4094571909, 275423344, 430227734, 506948616,
   659060556, 883997877, 958139571, 1322822218, 1537002063,
   1747873779, 1955562222, 2024104815, 2227730452, 2361852424,
   2428436474, 2756734187, 3204031479, 3329325298]

/-- The eight 32-bit words of a SHA-256 hash state. -/
structure Hash8 where
  h0 : Nat
  h1 : Nat
  h2 : Nat
  h3 : Nat
  h4 : Nat
  h5 : Nat
  h6 : Nat
  h7 : Nat
deriving DecidableEq, Repr

/-- SHA-256 initial hash value. -/
def initH : Hash8 :=
  ⟨1779033703, 3144134277, 1013904242, 2773480762, 1359893119, 2600822924, 528734635, 1541459225⟩

/-- The eight working registers of the SHA-256 round function. -/
structure Regs where
  a : Nat
  b : Nat
  c : Nat
  d : Nat
  e : Nat
  f : Nat
  g : Nat
  h : Nat

/-- Big-endian 32-bit word from four bytes. -/
def wordOfBytes (b0 b1 b2 b3 : Nat) : Nat := b0 * 16777216 + b1 * 65536 + b2 * 256 + b3

/-- The `i`-th big-endian word of a 64-byte block. -/
def blockWord (block : List Nat) (i : Nat) : Nat :=
  wordOfBytes (block.getD (4 * i) 0) (block.getD (4 * i + 1) 0)
    (block.getD (4 * i + 2) 0) (block.getD (4 * i + 3) 0)

/-- The 64-entry SHA-256 message schedule of one block: the 16 block words
extended 48 times by the small-sigma recurrence. -/
def schedule (block : List Nat) : List Nat :=
  (List.range 48).foldl
    (fun ws i =>
      ws ++ [w32 (ssig1 (ws.getD (i + 14) 0) + ws.getD (i + 9) 0 +
                  ssig0 (ws.getD (i + 1) 0) + ws.getD i 0)])
    ((List.range 16).map (blockWord block))

/-- One SHA-256 round. -/
def roundStep (ws : List Nat) (r : Regs) (t : Nat) : Regs :=
  let T1 := w32 (r.h + bsig1 r.e + shaCh r.e r.f r.g + K256.getD t 0 + ws.getD t 0)
  let T2 := w32 (bsig0 r.a + shaMaj r.a r.b r.c)
  ⟨w32 (T1 + T2), r.a, r.b, r.c, w32 (r.d + T1), r.e, r.f, r.g⟩

/-- SHA-256 compression function on one 64-byte block. -/
def sha256Compress (H : Hash8) (block : List Nat) : Hash8 :=
  let ws := schedule block
  let r := (List.range 64).foldl (roundStep ws) ⟨H.h0, H.h1, H.h2, H.h3, H.h4, H.h5, H.h6, H.h7⟩
  ⟨w32 (H.h0 + r.a), w32 (H.h1 + r.b), w32 (H.h2 + r.c), w32 (H.h3 + r.d),
   w32 (H.h4 + r.e), w32 (H.h5 + r.f), w32 (H.h6 + r.g), w32 (H.h7 + r.h)⟩

/-- Big-endian 8-byte encoding of a 64-bit length. -/
def lenBytes (n : Nat) : List Nat :=
  [n / 72057594037927936 % 256, n / 281474976710656 % 256, n / 1099511627776 % 256,
   n / 4294967296 % 256, n / 16777216 % 256, n / 65536 % 256, n / 256 % 256, n % 256]

/-- SHA-256 padding: append `0x80`, zeros to 56 mod 64, and the bit length. -/
def sha256Pad (m : List Nat) : List Nat :=
  let L := m.length
  let zeros := (120 - (L + 1) % 64) % 64
  m ++ 128 :: List.replicate zeros 0 ++ lenBytes (8 * L)

/-- Iterate the compression function over consecutive 64-byte blocks.  The
first argument is fuel; it is always called with fuel at least the number
of blocks, so the `0` case is never reached on padded input. -/
def sha256Blocks : Nat → Hash8 → List Nat → Hash8
  | 0, H, _ => H
  | fuel + 1, H, l =>
    if l = [] then H else sha256Blocks fuel (sha256Compress H (l.take 64)) (l.drop 64)

/-- Big-endian bytes of a 32-bit word. -/
def wordBytes (w : Nat) : List Nat := [w / 16777216 % 256, w / 65536 % 256, w / 256 % 256, w % 256]

/-- SHA-256 of a byte string, as a 32-byte string. -/
def sha256Bytes (m : List Nat) : List Nat :=
  let p := sha256Pad m
  let H := sha256Blocks p.length initH p
  wordBytes H.h0 ++ wordBytes H.h1 ++ wordBytes H.h2 ++ wordBytes H.h3 ++
  wordBytes H.h4 ++ wordBytes H.h5 ++ wordBytes H.h6 ++ wordBytes H.h7

/-! ## HMAC-SHA256 (RFC 2104), as computed by node:crypto -/

/-- HMAC-SHA256 over byte strings: keys longer than the 64-byte block are
hashed, the key is zero-padded to 64 bytes, and the nested hashes use the
`0x36`/`0x5c` pads. -/
def hmacSha256 (key msg : List Nat) : List Nat :=
  let k1 := if 64 < key.length then sha256Bytes key else key
  let k0 := k1 ++ List.replicate (64 - k1.length) 0
  let inner := sha256Bytes ((k0.map fun b => Nat.xor b 54) ++ msg)
  sha256Bytes ((k0.map fun b => Nat.xor b 92) ++ inner)

/-! ## Hex encoding and UTF-8, as used by `.digest('hex')` and `Buffer.from` -/

/-- Lowercase hexadecimal digit for a value below 16. -/
def hexChar (n : Nat) : Char :=
  match n with
  | 0 => '0' | 1 => '1' | 2 => '2' | 3 => '3' | 4 => '4' | 5 => '5' | 6 => '6' | 7 => '7'
  | 8 => '8' | 9 => '9' | 10 => 'a' | 11 => 'b' | 12 => 'c' | 13 => 'd' | 14 => 'e' | 15 => 'f'
  | _ => '0'

/-- The two lowercase hex characters of one byte. -/
def byteHexChars (b : Nat) : List Char := [hexChar (b / 16), hexChar (b % 16)]

/-- Lowercase hex string of a byte string, as produced by `.digest('hex')`. -/
def hexStr (l : List Nat) : String := ⟨(l.map byteHexChars).flatten⟩

/-- UTF-8 encoding of a single code point. -/
def utf8Bytes (n : Nat) : List Nat :=
  if n < 128 then [n]
  else if n < 2048 then [192 + n / 64, 128 + n % 64]
  else if n < 65536 then [224 + n / 4096, 128 + n / 64 % 64, 128 + n % 64]
  else [240 + n / 262144, 128 + n / 4096 % 64, 128 + n / 64 % 64, 128 + n % 64]

/-- UTF-8 bytes of a string: the model of `Buffer.from(s)` and of feeding a
JavaScript string to `createHmac`/`update` (Node defaults to utf-8). -/
def strBytes (s : String) : List Nat := (s.data.map fun c => utf8Bytes c.toNat).flatten

/-- `crypto.createHmac('sha256', secret).update(message).digest('hex')` on
JavaScript strings. -/
def hmacHexOfStrings (secret message : String) : String :=
  hexStr (hmacSha256 (strBytes secret) (strBytes message))

/-! ## JavaScript primitives used by the verifier -/

/-- JavaScript whitespace accepted by `parseInt` (the common members of the
`StrWhiteSpaceChar` production: space, tab, LF, VT, FF, CR, NBSP, BOM, and
the line separators). -/
def isJsSpace (c : Char) : Bool :=
  c = ' ' || c = '\t' || c = '\n' || c = '\r' || c.toNat = 11 || c.toNat = 12 ||
  c.toNat = 160 || c.toNat = 65279 || c.toNat = 8232 || c.toNat = 8233

/-- Value of a decimal digit character. -/
def decDigitVal (c : Char) : Option Nat :=
  if '0' ≤ c ∧ c ≤ '9' then some (c.toNat - 48) else none

/-- Value of a hexadecimal digit character, either case. -/
def hexDigitVal (c : Char) : Option Nat :=
  if '0' ≤ c ∧ c ≤ '9' then some (c.toNat - 48)
  else if 'a' ≤ c ∧ c ≤ 'f' then some (c.toNat - 87)
  else if 'A' ≤ c ∧ c ≤ 'F' then some (c.toNat - 55)
  else none

/-- Accumulate the value of the longest digit prefix. -/
def digitsVal (base : Nat) (f : Char → Option Nat) : List Char → Nat → Nat
  | [], acc => acc
  | c :: cs, acc =>
    match f c with
    | some d => digitsVal base f cs (base * acc + d)
    | none => acc

/-- Value of the longest nonempty digit prefix, `none` when the first
character is not a digit. -/
def leadDigits (base : Nat) (f : Char → Option Nat) : List Char → Option Nat
  | [] => none
  | c :: cs =>
    match f c with
    | some d => some (digitsVal base f cs d)
    | none => none

/-- JavaScript `parseInt(s)` with no radix argument: skip leading
whitespace, read an optional sign, use hexadecimal after a `0x`/`0X`
prefix and decimal otherwise, and return `none` for `NaN` (no digits). -/
def parseIntJS (s : String) : Option Int :=
  let l := s.data.dropWhile isJsSpace
  let sl : Int × List Char :=
    match l with
    | '-' :: r => (-1, r)
    | '+' :: r => (1, r)
    | _ => (1, l)
  match sl.2 with
  | '0' :: c :: r =>
    if c = 'x' || c = 'X' then (leadDigits 16 hexDigitVal r).map fun v => sl.1 * (v : Int)
    else (leadDigits 10 decDigitVal sl.2).map fun v => sl.1 * (v : Int)
  | _ => (leadDigits 10 decDigitVal sl.2).map fun v => sl.1 * (v : Int)

/-- Split a character list at every occurrence of `c`, like the JavaScript
`String.prototype.split` with a one-character separator: `""` splits to
`[""]`, and separators at the ends produce empty segments. -/
def splitOnChar (c : Char) : List Char → List (List Char)
  | [] => [[]]
  | x :: xs =>
    let r := splitOnChar c xs
    if x = c then [] :: r
    else
      match r with
      | [] => [[x]]
      | h :: t => (x :: h) :: t

/-- The element at index 1, like the JavaScript `array[1]` (`none` for
`undefined`). -/
def secondSegment : List (List Char) → Option (List Char)
  | _ :: b :: _ => some b
  | _ => none

/-- `signature.split('=')[1] || signature`: the digest the verifier
compares.  `[1]` is `undefined` when the header has no `'='`, and the
empty segment is falsy; both fall back to the whole header. -/
def extractProvidedSignature (signature : String) : String :=
  match secondSegment (splitOnChar '=' signature.data) with
  | some cs => if cs = [] then signature else ⟨cs⟩
  | none => signature

/-- `crypto.timingSafeEqual(Buffer.from(a), Buffer.from(b))`: `none` models
the `RangeError` thrown when the byte lengths differ; otherwise the
(constant-time) equality verdict. -/
def timingSafeEqualJS (a b : List Nat) : Option Bool :=
  if a.length = b.length then some (decide (a = b)) else none

/-! ## The webhook signature verifier
(`verifyWebhookSignature` in `examples/github-release-with-webhook.js`) -/

/-- The freshness guard `Math.abs(currentTime - parseInt(timestamp)) > 300`.
When `parseInt` yields `NaN` the comparison is `false` (a `NaN`
comparison), so a non-numeric timestamp does not trigger rejection. -/
def staleReject (timestamp : String) (currentTime : Int) : Bool :=
  match parseIntJS timestamp with
  | some t => decide (300 < (currentTime - t).natAbs)
  | none => false

/-- `verifyWebhookSignature(payloadJson, signature, timestamp, secret)`,
with the ambient `Math.floor(Date.now() / 1000)` passed as `currentTime`.
Rejects stale timestamps, recomputes the HMAC of
`` `${timestamp}.${payloadJson}` ``, extracts the provided digest, and
compares with `timingSafeEqual` inside a `try`/`catch` returning `false`. -/
def verifyWebhookSignature (payloadJson signature timestamp secret : String)
    (currentTime : Int) : Bool :=
  if staleReject timestamp currentTime then false
  else
    let message := timestamp ++ "." ++ payloadJson
    let expectedSignature := hmacHexOfStrings secret message
    let providedSignature := extractProvidedSignature signature
    match timingSafeEqualJS (strBytes expectedSignature) (strBytes providedSignature) with
    | some b => b
    | none => false

/-! ## The SDK client's response handling (`request` in `src/index.ts`) -/

/-- The JSON response body, with the fields `request` reads modelled as
optional strings (`none` is an absent field / `undefined`). -/
structure ApiBody where
  detail : Option String := none
  message : Option String := none
  job_id : Option String := none
  id : Option String := none
  status : Option String := none
  url : Option String := none
  error : Option String := none
  video_url : Option String := none
  error_message : Option String := none
deriving DecidableEq, Repr

/-- The error thrown on a non-2xx response (`VloexError` in `types.ts`);
`request` always supplies the HTTP status. -/
structure VloexError where
  message : String
  statusCode : Option Nat
deriving DecidableEq, Repr

/-- The stable `Video` shape the SDK returns. -/
structure Video where
  id : Option String := none
  status : Option String := none
  url : Option String := none
  error : Option String := none
deriving DecidableEq, Repr

/-- Result of `request`: a normalized video job, or the raw body for paths
matching neither transform. -/
inductive SdkResult where
  | video : Video → SdkResult
  | raw : ApiBody → SdkResult
deriving DecidableEq, Repr

/-- JavaScript `a || b` on possibly-undefined strings: `undefined` and the
empty string are falsy. -/
def jsOrOpt (a b : Option String) : Option String :=
  match a with
  | some s => if s = "" then b else some s
  | none => b

/-- JavaScript `a || b` with a string fallback. -/
def jsOrStr (a : Option String) (b : String) : String :=
  match a with
  | some s => if s = "" then b else s
  | none => b

/-- `response.ok` of the Fetch API: status in the range 200–299. -/
def responseOk (status : Nat) : Bool := decide (200 ≤ status ∧ status < 300)

/-- One step of `path.includes(sub)`: whether `sub` is a prefix. -/
def leadsWith : List Char → List Char → Bool
  | [], _ => true
  | _ :: _, [] => false
  | a :: as, b :: bs => a == b && leadsWith as bs

/-- Whether `sub` occurs as a contiguous substring. -/
def hasSubstr (sub : List Char) : List Char → Bool
  | [] => leadsWith sub []
  | c :: rest => leadsWith sub (c :: rest) || hasSubstr sub rest

/-- JavaScript `s.includes(sub)`. -/
def strIncludes (s sub : String) : Bool := hasSubstr sub.data s.data

/-- The response handling of the SDK's `request` (after `response.json()`
has produced `data`): non-2xx throws
`new VloexError(data.detail || data.message || 'API request failed',
response.status)`; 2xx is renamed by which substring `path` contains.
(The journey-enabled variant of `index.ts` adds a `'/from-journey'`
branch after these two; it is unreachable from the create/retrieve paths
modelled here, whose handling is identical in both variants.) -/
def request (_method path : String) (status : Nat) (data : ApiBody) :
    Except VloexError SdkResult :=
  if !(responseOk status) then
    .error ⟨jsOrStr data.detail (jsOrStr data.message "API request failed"), some status⟩
  else if strIncludes path "/generate" then
    .ok (.video ⟨jsOrOpt data.job_id data.id, data.status, data.url, data.error⟩)
  else if strIncludes path "/status" then
    .ok (.video ⟨data.id, data.status, jsOrOpt data.video_url data.url,
                 jsOrOpt data.error_message data.error⟩)
  else
    .ok (.raw data)

/-- `vloex.videos.create`: a `POST` to the fixed path `/v1/generate`,
applied to the response it receives. -/
def videosCreate (status : Nat) (data : ApiBody) : Except VloexError SdkResult :=
  request "POST" "/v1/generate" status data

/-- `vloex.videos.retrieve(id)`: a `GET` to `` `/v1/jobs/${id}/status` ``,
applied to the response it receives. -/
def videosRetrieve (id : String) (status : Nat) (data : ApiBody) :
    Except VloexError SdkResult :=
  request "GET" ("/v1/jobs/" ++ id ++ "/status") status data

/-- Rendering of the amended C4 claim: the digest is the segment of the
header between the first `'='` and the following `'='` (or the end);
when the header has no `'='`, or that segment is empty, the whole header
is used verbatim. -/
def extractDigestSpec (sig : String) : String :=
  if '=' ∈ sig.data then
    if ((sig.data.dropWhile fun x => x ≠ '=').tail.takeWhile fun x => x ≠ '=') = [] then sig
    else ⟨(sig.data.dropWhile fun x => x ≠ '=').tail.takeWhile fun x => x ≠ '='⟩
  else sig

/-! ## Algorithm sanity checks against published test vectors -/

set_option maxRecDepth 100000

/-- FIPS 180-4 test vector: SHA-256 of `"abc"`. -/
theorem sha256_fips_vector :
    hexStr (sha256Bytes (strBytes "abc")) =
      "ba7816bf8f01cfea414140de5dae2223b00361a396177a9cb410ff61f20015ad" := by
  decide

/-- RFC 4231 test case 2: HMAC-SHA256 with key `"Jefe"` over
`"what do ya want for nothing?"`. -/
theorem hmac_rfc4231_vector :
    hmacHexOfStrings "Jefe" "what do ya want for nothing?" =
      "5bdcc146bf60754e6a042426089575c75a003f089d2739839dec58b964ec3843" := by
  decide

/-! ## Helper lemmas -/

theorem hexChar_ne_eqsign (n : Nat) : hexChar n ≠ '=' := by
  unfold hexChar
  split <;> decide

theorem hexChar_ascii (n : Nat) : (hexChar n).toNat < 128 := by
  unfold hexChar
  split <;> decide

theorem str_data_append (a b : String) : (a ++ b).data = a.data ++ b.data := by
  cases a; cases b; rfl

theorem hexStr_data (l : List Nat) : (hexStr l).data = (l.map byteHexChars).flatten := rfl

theorem hexStr_data_length (l : List Nat) : (hexStr l).data.length = 2 * l.length := by
  rw [hexStr_data]
  induction l with
  | nil => rfl
  | cons b bs ih =>
    simp only [List.map_cons, List.flatten_cons, List.length_append, ih, byteHexChars,
      List.length_cons, List.length_nil]
    omega

theorem hexStr_mem (l : List Nat) (c : Char) (hc : c ∈ (hexStr l).data) :
    ∃ n, c = hexChar n := by
  rw [hexStr_data] at hc
  rcases List.mem_flatten.mp hc with ⟨cs, hcs, hmem⟩
  rcases List.mem_map.mp hcs with ⟨b, _, rfl⟩
  simp only [byteHexChars, List.mem_cons, List.not_mem_nil, or_false] at hmem
  rcases hmem with h | h
  · exact ⟨b / 16, h⟩
  · exact ⟨b % 16, h⟩

theorem hexStr_no_eqsign (l : List Nat) : '=' ∉ (hexStr l).data := by
  intro hc
  rcases hexStr_mem l '=' hc with ⟨n, hn⟩
  exact hexChar_ne_eqsign n hn.symm

theorem hexStr_all_ascii (l : List Nat) (c : Char) (hc : c ∈ (hexStr l).data) :
    c.toNat < 128 := by
  rcases hexStr_mem l c hc with ⟨n, rfl⟩
  exact hexChar_ascii n

theorem utf8_flatten_length (cs : List Char) (h : ∀ c ∈ cs, c.toNat < 128) :
    ((cs.map fun c => utf8Bytes c.toNat).flatten).length = cs.length := by
  induction cs with
  | nil => rfl
  | cons c rest ih =>
    have hc : c.toNat < 128 := h c (List.mem_cons_self c rest)
    have hrest : ∀ x ∈ rest, x.toNat < 128 := fun x hx => h x (List.mem_cons_of_mem c hx)
    have hone : utf8Bytes c.toNat = [c.toNat] := by unfold utf8Bytes; rw [if_pos hc]
    simp only [List.map_cons, List.flatten_cons, List.length_append, ih hrest, hone,
      List.length_cons, List.length_nil]
    omega

theorem strBytes_length_of_ascii (s : String) (h : ∀ c ∈ s.data, c.toNat < 128) :
    (strBytes s).length = s.data.length :=
  utf8_flatten_length s.data h

theorem sha256Bytes_length (m : List Nat) : (sha256Bytes m).length = 32 := by
  simp [sha256Bytes, wordBytes]

theorem hmacSha256_length (key msg : List Nat) : (hmacSha256 key msg).length = 32 := by
  simp only [hmacSha256]
  exact sha256Bytes_length _

theorem hmacHex_data_length (secret message : String) :
    (hmacHexOfStrings secret message).data.length = 64 := by
  unfold hmacHexOfStrings
  rw [hexStr_data_length, hmacSha256_length]

theorem hmacHex_ne_empty (secret message : String) : hmacHexOfStrings secret message ≠ "" := by
  intro h
  have := hmacHex_data_length secret message
  rw [h] at this
  exact absurd this (by decide)

theorem hmacHex_bytes_length (secret message : String) :
    (strBytes (hmacHexOfStrings secret message)).length = 64 := by
  unfold hmacHexOfStrings
  rw [strBytes_length_of_ascii _ (fun c hc => hexStr_all_ascii _ c hc),
    hexStr_data_length, hmacSha256_length]

theorem splitOnChar_not_mem (c : Char) (l : List Char) (h : c ∉ l) : splitOnChar c l = [l] := by
  induction l with
  | nil => rfl
  | cons x xs ih =>
    have hx : ¬ (x = c) := by
      intro he
      exact h (by rw [← he]; exact List.mem_cons_self x xs)
    have hxs : c ∉ xs := fun hm => h (List.mem_cons_of_mem x hm)
    simp only [splitOnChar]
    rw [ih hxs, if_neg hx]

theorem splitOnChar_append (c : Char) (p q : List Char) (hp : c ∉ p) :
    splitOnChar c (p ++ c :: q) = p :: splitOnChar c q := by
  induction p with
  | nil =>
    simp [splitOnChar]
  | cons x xs ih =>
    have hx : ¬ (x = c) := by
      intro he
      exact hp (by rw [← he]; exact List.mem_cons_self x xs)
    have hxs : c ∉ xs := fun hm => hp (List.mem_cons_of_mem x hm)
    simp only [List.cons_append, splitOnChar, List.append_eq]
    rw [ih hxs, if_neg hx]

theorem string_mk_data (d : String) : (⟨d.data⟩ : String) = d := by cases d; rfl

theorem extract_correct_digest (d : String) (hne : d ≠ "") (hnoeq : '=' ∉ d.data) :
    extractProvidedSignature ("sha256=" ++ d) = d := by
  have hdata : ("sha256=" ++ d).data = ['s', 'h', 'a', '2', '5', '6'] ++ '=' :: d.data := by
    rw [str_data_append]
    rfl
  have hne' : d.data ≠ [] := by
    intro h0
    apply hne
    rw [← string_mk_data d, h0]
  unfold extractProvidedSignature
  rw [hdata, splitOnChar_append '=' ['s', 'h', 'a', '2', '5', '6'] d.data (by decide),
    splitOnChar_not_mem '=' d.data hnoeq]
  simp only [secondSegment]
  rw [if_neg hne']

theorem tse_self (x : List Nat) : timingSafeEqualJS x x = some true := by
  unfold timingSafeEqualJS
  rw [if_pos rfl]
  simp

theorem tse_ne_length (a b : List Nat) (h : a.length ≠ b.length) :
    timingSafeEqualJS a b = none := by
  unfold timingSafeEqualJS
  rw [if_neg h]

theorem hmacHex_no_eqsign (secret message : String) :
    '=' ∉ (hmacHexOfStrings secret message).data := by
  unfold hmacHexOfStrings
  exact hexStr_no_eqsign _

/-- When the freshness guard does not fire, a signature header formed as
`"sha256=" ++` the correct HMAC hex digest verifies. -/
theorem verify_correct_sig (payload ts secret : String) (now : Int)
    (hstale : staleReject ts now = false) :
    verifyWebhookSignature payload
      ("sha256=" ++ hmacHexOfStrings secret (ts ++ "." ++ payload)) ts secret now = true := by
  simp only [verifyWebhookSignature, hstale, Bool.false_eq_true, if_false]
  rw [extract_correct_digest _ (hmacHex_ne_empty _ _) (hmacHex_no_eqsign _ _), tse_self]

theorem splitOnChar_head_shape (c : Char) (l : List Char) :
    ∃ t, splitOnChar c l = (l.takeWhile fun x => x ≠ c) :: t := by
  induction l with
  | nil => exact ⟨[], rfl⟩
  | cons x xs ih =>
    by_cases hx : x = c
    · subst hx
      refine ⟨splitOnChar x xs, ?_⟩
      simp [splitOnChar, List.takeWhile_cons]
    · rcases ih with ⟨t, ht⟩
      refine ⟨t, ?_⟩
      simp only [splitOnChar, ht, if_neg hx]
      simp [List.takeWhile_cons, hx]

theorem dropWhile_mem_decomp (c : Char) (l : List Char) (h : c ∈ l) :
    l.dropWhile (fun x => x ≠ c) = c :: (l.dropWhile fun x => x ≠ c).tail := by
  induction l with
  | nil => cases h
  | cons x xs ih =>
    by_cases hx : x = c
    · subst hx
      simp [List.dropWhile_cons]
    · have hxs : c ∈ xs := by
        rcases List.mem_cons.mp h with h1 | h1
        · exact absurd h1.symm hx
        · exact h1
      have hp : (decide (x ≠ c)) = true := by simp [hx]
      simp only [List.dropWhile_cons, hp, if_true]
      exact ih hxs

theorem takeWhile_ne_not_mem (c : Char) (l : List Char) :
    c ∉ l.takeWhile fun x => x ≠ c := by
  intro hmem
  have := List.mem_takeWhile_imp hmem
  simp at this

/-- C4 counterexample: for the header `"sha256=ab=cd"` the digest the
verifier compares is `"ab"` (the segment between the first two `'='`),
not `"ab=cd"` (everything after the first `'='`) as the claim states. -/
theorem extract_digest_counterexample :
    extractProvidedSignature "sha256=ab=cd" = "ab" ∧
      extractProvidedSignature "sha256=ab=cd" ≠ "ab=cd" := by
  decide

/-- C4 (amended): for every signature header, the digest compared is the
segment of the header strictly between the first `'='` and the next
`'='` (or the end of the header); when the header contains no `'='`, or
that segment is empty, the whole header value is used verbatim. -/
theorem extract_digest_amended (sig : String) :
    extractProvidedSignature sig = extractDigestSpec sig := by
  unfold extractProvidedSignature extractDigestSpec
  by_cases hmem : '=' ∈ sig.data
  · rw [if_pos hmem]
    have hdec := dropWhile_mem_decomp '=' sig.data hmem
    have htk := List.takeWhile_append_dropWhile (fun x => x ≠ '=') sig.data
    have hsplit : sig.data = (sig.data.takeWhile fun x => x ≠ '=') ++
        '=' :: (sig.data.dropWhile fun x => x ≠ '=').tail := by
      conv_lhs => rw [← htk, hdec]
    conv_lhs => rw [hsplit]
    rw [splitOnChar_append '=' _ _ (takeWhile_ne_not_mem '=' sig.data)]
    rcases splitOnChar_head_shape '=' ((sig.data.dropWhile fun x => x ≠ '=').tail) with ⟨t, ht⟩
    rw [ht]
    rfl
  · rw [if_neg hmem, splitOnChar_not_mem '=' sig.data hmem]
    rfl

/-- C1: round-trip correctness of webhook verification.  For every secret
(non-empty, per the claim), payload, and timestamp string that parses to a
unix time within 300 seconds of the current time, a signature header of
the form `"sha256=" ++` the lowercase hex HMAC-SHA256 of
`timestamp ++ "." ++ payload` under the secret verifies to `true`. -/
theorem webhook_roundtrip (payload ts secret : String) (t now : Int)
    (_hsecret : secret ≠ "") (hts : parseIntJS ts = some t)
    (hfresh : (now - t).natAbs ≤ 300) :
    verifyWebhookSignature payload
      ("sha256=" ++ hmacHexOfStrings secret (ts ++ "." ++ payload)) ts secret now = true := by
  apply verify_correct_sig
  unfold staleReject
  rw [hts]
  simp only [decide_eq_false_iff_not, not_lt]
  exact hfresh

/-- Witness for C1 at payload `"p"`, secret `"s"`, timestamp `"1000"`,
current time `1000`. -/
theorem webhook_roundtrip_witness :
    verifyWebhookSignature "p" ("sha256=" ++ hmacHexOfStrings "s" ("1000" ++ "." ++ "p"))
      "1000" "s" 1000 = true :=
  webhook_roundtrip "p" "1000" "s" 1000 1000 (by decide) (by decide) (by decide)

/-- C2: replay and future-skew rejection.  For every timestamp string that
parses to an integer differing from the current time by more than 300
seconds, verification returns `false` for every signature header —
in particular for the correctly computed digest. -/
theorem webhook_rejects_stale (payload signature ts secret : String) (t now : Int)
    (hts : parseIntJS ts = some t) (hstale : 300 < (now - t).natAbs) :
    verifyWebhookSignature payload signature ts secret now = false := by
  unfold verifyWebhookSignature
  have h : staleReject ts now = true := by
    unfold staleReject
    rw [hts]
    exact decide_eq_true hstale
  rw [h]
  simp

/-- Witness for C2: the timestamp `"10"` at current time `1000` is stale,
and even the correctly computed digest is rejected. -/
theorem webhook_rejects_stale_witness :
    verifyWebhookSignature "p" ("sha256=" ++ hmacHexOfStrings "s" ("10" ++ "." ++ "p"))
      "10" "s" 1000 = false :=
  webhook_rejects_stale "p" ("sha256=" ++ hmacHexOfStrings "s" ("10" ++ "." ++ "p"))
    "10" "s" 10 1000 (by decide) (by decide)

/-- C3 (code bug evaluation): the code accepts a correctly signed message
with the non-numeric timestamp `"abc"`.  `parseInt('abc')` is `NaN`, the
comparison `Math.abs(now - NaN) > 300` is `false`, so the freshness guard
is silently bypassed and the digest comparison decides — contradicting the
claim (and the spec) that a non-numeric timestamp always yields `false`. -/
theorem webhook_nonnumeric_timestamp_accepted :
    verifyWebhookSignature "p" ("sha256=" ++ hmacHexOfStrings "s" ("abc" ++ "." ++ "p"))
      "abc" "s" 1000 = true :=
  verify_correct_sig "p" "abc" "s" 1000 (by decide)

/-- C5: the verifier is total and silently fails: the embedding returns a
boolean for every input (each JavaScript operation that can throw —
`timingSafeEqual` on length-mismatched buffers — is modelled in `Option`
and caught, and an empty secret is accepted by `createHmac`), and an empty
(or missing, which the route handler defaults to empty) signature header
yields `false` for every payload, timestamp, secret, and current time:
the 64-character expected digest never matches an empty provided digest. -/
theorem webhook_empty_signature_false (payload ts secret : String) (now : Int) :
    verifyWebhookSignature payload "" ts secret now = false := by
  unfold verifyWebhookSignature
  cases h : staleReject ts now
  · simp only [Bool.false_eq_true, if_false]
    have he : extractProvidedSignature "" = "" := rfl
    rw [he]
    have hn : timingSafeEqualJS (strBytes (hmacHexOfStrings secret (ts ++ "." ++ payload)))
        (strBytes "") = none := by
      apply tse_ne_length
      rw [hmacHex_bytes_length]
      decide
    rw [hn]
  · simp

/-- C10: the verifier accepts a zero-length secret rather than refusing it:
with the empty secret, a fresh timestamp, and the correct HMAC digest
under the empty key, verification returns `true`. -/
theorem webhook_accepts_empty_secret :
    verifyWebhookSignature "p" ("sha256=" ++ hmacHexOfStrings "" ("1000" ++ "." ++ "p"))
      "1000" "" 1000 = true :=
  verify_correct_sig "p" "1000" "" 1000 (by decide)

theorem leadsWith_refl (l : List Char) : leadsWith l l = true := by
  induction l with
  | nil => rfl
  | cons x xs ih => simp [leadsWith, ih]

theorem hasSubstr_append_self (sub pre : List Char) : hasSubstr sub (pre ++ sub) = true := by
  induction pre with
  | nil =>
    cases sub with
    | nil => rfl
    | cons x xs => simp [hasSubstr, leadsWith_refl]
  | cons y ys ih =>
    simp only [List.cons_append, hasSubstr, List.append_eq, ih, Bool.or_true]

theorem strIncludes_retrieve_path (id : String) :
    strIncludes ("/v1/jobs/" ++ id ++ "/status") "/status" = true := by
  unfold strIncludes
  rw [str_data_append]
  exact hasSubstr_append_self _ _

theorem strIncludes_generate_path : strIncludes "/v1/generate" "/generate" = true := rfl

/-- C7 counterexample: with a 401 response whose body has `detail` present
but empty and `message` `"x"`, the thrown error's message is `"x"`, not
the present `detail` field `""` — `detail` is skipped by JavaScript
truthiness, refuting the claim's unconditional "detail field if present". -/
theorem api_error_empty_detail_counterexample :
    videosCreate 401 { detail := some "", message := some "x" } =
      .error ⟨"x", some 401⟩ ∧ ("x" : String) ≠ "" :=
  ⟨rfl, by decide⟩

/-- C7 (amended): on every non-2xx response, `request` throws a
`VloexError` carrying the HTTP status code, with message the body's
`detail` field when present and non-empty, otherwise the body's `message`
field when present and non-empty, otherwise `"API request failed"`. -/
theorem api_error_propagation (method path : String) (status : Nat) (data : ApiBody)
    (hs : responseOk status = false) :
    (∀ d, data.detail = some d → d ≠ "" →
        request method path status data = .error ⟨d, some status⟩) ∧
    ((data.detail = none ∨ data.detail = some "") →
      ∀ m, data.message = some m → m ≠ "" →
        request method path status data = .error ⟨m, some status⟩) ∧
    ((data.detail = none ∨ data.detail = some "") →
      (data.message = none ∨ data.message = some "") →
        request method path status data = .error ⟨"API request failed", some status⟩) := by
  refine ⟨?_, ?_, ?_⟩
  · intro d hd hdne
    simp [request, hs, jsOrStr, hd, hdne]
  · intro hdet m hm hmne
    rcases hdet with h | h <;> simp [request, hs, jsOrStr, h, hm, hmne]
  · intro hdet hmsg
    rcases hdet with h | h <;> rcases hmsg with h2 | h2 <;> simp [request, hs, jsOrStr, h, h2]

/-- Witness for C7 at a 401 response with `detail` `"bad key"`: the thrown
error is `VloexError("bad key", 401)`. -/
theorem api_error_propagation_witness :
    request "POST" "/v1/generate" 401 { detail := some "bad key" } =
      .error ⟨"bad key", some 401⟩ :=
  (api_error_propagation "POST" "/v1/generate" 401 { detail := some "bad key" }
    (by decide)).1 "bad key" rfl (by decide)

/-- C8 counterexample: on a 200 create response whose body has `job_id`
present but empty and `id` `"x"`, the returned id is `"x"`, not the
present `job_id` value `""` — refuting the claim's unconditional
"`job_id` field when present". -/
theorem create_empty_job_id_counterexample :
    videosCreate 200 { job_id := some "", id := some "x", status := some "queued" } =
      .ok (.video ⟨some "x", some "queued", none, none⟩) ∧
      (some "x" : Option String) ≠ some "" :=
  ⟨rfl, by decide⟩

/-- C8 (amended): on every 2xx create response, the returned `Video`'s
`id` is the body's `job_id` when present and non-empty, otherwise the
body's `id`; `status`, `url`, `error` are copied; in particular the
claim's concrete example holds. -/
theorem create_normalization (status : Nat) (data : ApiBody)
    (hok : responseOk status = true) :
    (∀ j, data.job_id = some j → j ≠ "" →
        videosCreate status data =
          .ok (.video ⟨some j, data.status, data.url, data.error⟩)) ∧
    ((data.job_id = none ∨ data.job_id = some "") →
        videosCreate status data =
          .ok (.video ⟨data.id, data.status, data.url, data.error⟩)) ∧
    videosCreate 200 { job_id := some "abc-123", status := some "queued" } =
      .ok (.video ⟨some "abc-123", some "queued", none, none⟩) := by
  refine ⟨?_, ?_, rfl⟩
  · intro j hj hjne
    simp [videosCreate, request, hok, strIncludes_generate_path, jsOrOpt, hj, hjne]
  · intro hjob
    rcases hjob with h | h <;>
      simp [videosCreate, request, hok, strIncludes_generate_path, jsOrOpt, h]

/-- Witness for C8: the claim's concrete example, via the theorem. -/
theorem create_normalization_witness :
    videosCreate 200 { job_id := some "abc-123", status := some "queued" } =
      .ok (.video ⟨some "abc-123", some "queued", none, none⟩) :=
  (create_normalization 200 { job_id := some "abc-123", status := some "queued" }
    (by decide)).1 "abc-123" rfl (by decide)

/-- C9 counterexample: on a 200 retrieve response whose body has
`video_url` present but empty and `url` `"https://u"`, the returned `url`
is `"https://u"`, not the present `video_url` value `""` — refuting the
claim's unconditional "`video_url` field when present". -/
theorem retrieve_empty_video_url_counterexample :
    videosRetrieve "abc-123" 200
        { id := some "a", status := some "completed", video_url := some "",
          url := some "https://u" } =
      .ok (.video ⟨some "a", some "completed", some "https://u", none⟩) ∧
      (some "https://u" : Option String) ≠ some "" :=
  ⟨rfl, by decide⟩

/-- C9 (amended): on every 2xx retrieve response — provided the job id
does not make the request path contain `"/generate"`, which would
misroute it into the create transform — the returned `Video`'s `url` is
the body's `video_url` when present and non-empty, otherwise `url`, and
its `error` is `error_message` when present and non-empty, otherwise
`error`; in particular the claim's concrete example holds. -/
theorem retrieve_normalization (id : String) (status : Nat) (data : ApiBody)
    (hok : responseOk status = true)
    (hid : strIncludes ("/v1/jobs/" ++ id ++ "/status") "/generate" = false) :
    (∀ v, data.video_url = some v → v ≠ "" →
      ∀ e, data.error_message = some e → e ≠ "" →
        videosRetrieve id status data =
          .ok (.video ⟨data.id, data.status, some v, some e⟩)) ∧
    (∀ v, data.video_url = some v → v ≠ "" →
      (data.error_message = none ∨ data.error_message = some "") →
        videosRetrieve id status data =
          .ok (.video ⟨data.id, data.status, some v, data.error⟩)) ∧
    ((data.video_url = none ∨ data.video_url = some "") →
      ∀ e, data.error_message = some e → e ≠ "" →
        videosRetrieve id status data =
          .ok (.video ⟨data.id, data.status, data.url, some e⟩)) ∧
    ((data.video_url = none ∨ data.video_url = some "") →
      (data.error_message = none ∨ data.error_message = some "") →
        videosRetrieve id status data =
          .ok (.video ⟨data.id, data.status, data.url, data.error⟩)) ∧
    videosRetrieve "abc-123" 200
        { id := some "abc-123", status := some "completed",
          video_url := some "https://x/y.mp4" } =
      .ok (.video ⟨some "abc-123", some "completed", some "https://x/y.mp4", none⟩) := by
  refine ⟨?_, ?_, ?_, ?_, rfl⟩
  · intro v hv hvne e he hene
    simp [videosRetrieve, request, hok, hid, strIncludes_retrieve_path, jsOrOpt,
      hv, hvne, he, hene]
  · intro v hv hvne hem
    rcases hem with h | h <;>
      simp [videosRetrieve, request, hok, hid, strIncludes_retrieve_path, jsOrOpt,
        hv, hvne, h]
  · intro hvu e he hene
    rcases hvu with h | h <;>
      simp [videosRetrieve, request, hok, hid, strIncludes_retrieve_path, jsOrOpt,
        h, he, hene]
  · intro hvu hem
    rcases hvu with h | h <;> rcases hem with h2 | h2 <;>
      simp [videosRetrieve, request, hok, hid, strIncludes_retrieve_path, jsOrOpt, h, h2]

/-- Witness for C9: the claim's concrete example, via the theorem. -/
theorem retrieve_normalization_witness :
    videosRetrieve "abc-123" 200
        { id := some "abc-123", status := some "completed",
          video_url := some "https://x/y.mp4" } =
      .ok (.video ⟨some "abc-123", some "completed", some "https://x/y.mp4", none⟩) :=
  (retrieve_normalization "abc-123" 200
    { id := some "abc-123", status := some "completed",
      video_url := some "https://x/y.mp4" } (by decide) (by decide)).2.2.2.2
